import Mathlib

/-!
Verification of the DSP engine in `src/main/dsp_processor.c`.

The C code is shallowly embedded over exact rationals: every C `float`
value is modelled as a `ℚ` and the libm transcendental functions
(`expf`, `powf`, `cosf`, `sinf`, `sqrtf`) are abstracted as unknown
functions `ℚ → ℚ` collected in a `CEnv` record, so every theorem below
quantifies over them.  All state-machine structure (which fields each
operation reads and writes, every branch and comparison) is translated
verbatim from the source.
-/

set_option maxRecDepth 4000

/-- Environment abstracting the parts of the build that are not visible in
the translated source.  The five function fields stand for the C math
library routines used by `dsp_processor.c`. Modelled from the spec: the
macros `DSP_VOLUME_CAP_NIGHT`, `DSP_VOLUME_CAP_NORMALIZER_REDUCTION` and
`DSP_VOLUME_TRIM_DEFAULT` are referenced by `dsp_processor.c` but their
definitions are not under `src/`; they are carried here as the fields
`volCapNight`, `volCapNormalizerReduction` and `volTrimDefault`.  The spec
says the Night cap is `100 - 20`, i.e. `volCapNight = 80`. -/
structure CEnv where
  expf : ℚ → ℚ
  powf : ℚ → ℚ → ℚ
  cosf : ℚ → ℚ
  sinf : ℚ → ℚ
  sqrtf : ℚ → ℚ
  volCapNight : ℕ
  volCapNormalizerReduction : ℕ
  volTrimDefault : ℕ

/-- `M_PI` as the decimal literal used in the source. -/
def M_PI : ℚ := 3.14159265358979323846

/-- `DB_TO_LINEAR(db) = powf(10, db / 20)`. -/
def DB_TO_LINEAR (env : CEnv) (db : ℚ) : ℚ := env.powf 10 (db / 20)

/-- Biquad coefficients `b0,b1,b2,a1,a2` (`a0` normalized to 1). -/
structure biquad_coeffs_t where
  b0 : ℚ
  b1 : ℚ
  b2 : ℚ
  a1 : ℚ
  a2 : ℚ
deriving DecidableEq

/-- Biquad delay line (Direct Form II Transposed). -/
structure biquad_state_t where
  z1 : ℚ
  z2 : ℚ
deriving DecidableEq

/-- Limiter envelope follower state. -/
structure limiter_state_t where
  envelope : ℚ
  gain : ℚ
deriving DecidableEq

/-- Result codes of the ESP-IDF API used by the module. -/
inductive esp_err_t where
  | ESP_OK
  | ESP_ERR_INVALID_ARG
  | ESP_ERR_INVALID_STATE
deriving DecidableEq

/-- EQ band parameters (`freq`, `gain_db`, `q_or_slope`, `type`). -/
structure eq_band_params_t where
  freq : ℚ
  gain_db : ℚ
  q_or_slope : ℚ
  type : ℕ
deriving DecidableEq

def EQ_TYPE_LOWSHELF : ℕ := 0
def EQ_TYPE_PEAKING : ℕ := 1
def EQ_TYPE_HIGHSHELF : ℕ := 2

def DSP_PRESET_OFFICE : ℕ := 0
def DSP_PRESET_FULL : ℕ := 1
def DSP_PRESET_NIGHT : ℕ := 2
def DSP_PRESET_SPEECH : ℕ := 3
def DSP_PRESET_COUNT : ℕ := 4

def DSP_SMOOTHING_MS : ℚ := 30
def DSP_PRE_GAIN_DB : ℚ := -6
def DSP_HPF_FREQ_HZ : ℚ := 95
def DSP_HPF_Q : ℚ := 0.707
def DSP_LIMITER_THRESHOLD_DB : ℚ := -1
def DSP_LIMITER_ATTACK_MS : ℚ := 3
def DSP_LIMITER_RELEASE_MS : ℚ := 120
def DSP_AUDIO_DUCK_GAIN_DB : ℚ := -12
def DSP_NORMALIZER_THRESHOLD_DB : ℚ := -20
def DSP_NORMALIZER_ATTACK_MS : ℚ := 7
def DSP_NORMALIZER_RELEASE_MS : ℚ := 150
def DSP_NORMALIZER_MAKEUP_DB : ℚ := 6

def DSP_FLAG_LIMITER_ACTIVE : ℕ := 1
def DSP_FLAG_CLIPPING : ℕ := 2
def DSP_FLAG_MUTED : ℕ := 8
def DSP_FLAG_AUDIO_DUCK : ℕ := 16
def DSP_FLAG_NORMALIZER : ℕ := 32

/-- Per-preset EQ tables (`preset_params` in the source).  Indexing a
`dsp_preset_t` value outside `0..3` is undefined behaviour in C; the
model totalizes it by returning the SPEECH row. -/
def preset_params (preset : ℕ) : Fin 4 → eq_band_params_t :=
  match preset with
  | 0 => ![⟨160, 1.5, 0.7, EQ_TYPE_LOWSHELF⟩, ⟨320, -1, 1, EQ_TYPE_PEAKING⟩,
           ⟨2800, -1.5, 1, EQ_TYPE_PEAKING⟩, ⟨9000, 0.5, 0.7, EQ_TYPE_HIGHSHELF⟩]
  | 1 => ![⟨140, 4, 0.8, EQ_TYPE_LOWSHELF⟩, ⟨420, -1.5, 1, EQ_TYPE_PEAKING⟩,
           ⟨3200, 0.7, 1, EQ_TYPE_PEAKING⟩, ⟨9500, 1.5, 0.7, EQ_TYPE_HIGHSHELF⟩]
  | 2 => ![⟨160, 2.5, 0.8, EQ_TYPE_LOWSHELF⟩, ⟨350, -1, 1, EQ_TYPE_PEAKING⟩,
           ⟨2500, 1, 1, EQ_TYPE_PEAKING⟩, ⟨9000, 1, 0.7, EQ_TYPE_HIGHSHELF⟩]
  | _ => ![⟨170, -2, 0.8, EQ_TYPE_LOWSHELF⟩, ⟨300, -1, 1, EQ_TYPE_PEAKING⟩,
           ⟨3200, 3, 1, EQ_TYPE_PEAKING⟩, ⟨7500, -1, 2, EQ_TYPE_PEAKING⟩]

/-- Loudness overlay table (`loudness_params` in the source). -/
def loudness_params : Fin 2 → eq_band_params_t :=
  ![⟨140, 2.5, 0.8, EQ_TYPE_LOWSHELF⟩, ⟨8500, 1, 0.7, EQ_TYPE_HIGHSHELF⟩]

/-- The whole `dsp_state_t` static state of the engine. -/
structure dsp_state_t where
  sample_rate : ℕ
  preset : ℕ
  loudness_enabled : Bool
  hpf_coeffs : biquad_coeffs_t
  eq_coeffs : Fin 4 → biquad_coeffs_t
  loudness_coeffs : Fin 2 → biquad_coeffs_t
  eq_target : Fin 4 → biquad_coeffs_t
  loudness_target : Fin 2 → biquad_coeffs_t
  hpf_state : Fin 2 → biquad_state_t
  eq_state : Fin 4 → Fin 2 → biquad_state_t
  loudness_state : Fin 2 → Fin 2 → biquad_state_t
  limiter : limiter_state_t
  limiter_threshold : ℚ
  limiter_attack_coeff : ℚ
  limiter_release_coeff : ℚ
  pre_gain : ℚ
  pre_gain_target : ℚ
  loudness_gain : ℚ
  loudness_gain_target : ℚ
  mute_gain : ℚ
  mute_gain_target : ℚ
  muted : Bool
  audio_duck_enabled : Bool
  audio_duck_gain : ℚ
  audio_duck_gain_target : ℚ
  volume_trim : ℕ
  volume_gain : ℚ
  volume_gain_target : ℚ
  normalizer_enabled : Bool
  normalizer_envelope : ℚ
  normalizer_gain : ℚ
  normalizer_threshold : ℚ
  normalizer_ratio : ℚ
  normalizer_attack_coeff : ℚ
  normalizer_release_coeff : ℚ
  normalizer_makeup_gain : ℚ
  smooth_coeff : ℚ
  limiter_active : Bool
  clipping_detected : Bool
  initialized : Bool
deriving DecidableEq

/-- `calc_biquad_lowshelf` (Audio EQ Cookbook low shelf). -/
def calc_biquad_lowshelf (env : CEnv) (freq gain_db S fs : ℚ) : biquad_coeffs_t :=
  let A := DB_TO_LINEAR env (gain_db / 2)
  let w0 := 2 * M_PI * freq / fs
  let cos_w0 := env.cosf w0
  let sin_w0 := env.sinf w0
  let alpha := sin_w0 / 2 * env.sqrtf ((A + 1 / A) * (1 / S - 1) + 2)
  let a0 := (A + 1) + (A - 1) * cos_w0 + 2 * env.sqrtf A * alpha
  { b0 := (A * ((A + 1) - (A - 1) * cos_w0 + 2 * env.sqrtf A * alpha)) / a0
    b1 := (2 * A * ((A - 1) - (A + 1) * cos_w0)) / a0
    b2 := (A * ((A + 1) - (A - 1) * cos_w0 - 2 * env.sqrtf A * alpha)) / a0
    a1 := (-2 * ((A - 1) + (A + 1) * cos_w0)) / a0
    a2 := ((A + 1) + (A - 1) * cos_w0 - 2 * env.sqrtf A * alpha) / a0 }

/-- `calc_biquad_highshelf` (Audio EQ Cookbook high shelf). -/
def calc_biquad_highshelf (env : CEnv) (freq gain_db S fs : ℚ) : biquad_coeffs_t :=
  let A := DB_TO_LINEAR env (gain_db / 2)
  let w0 := 2 * M_PI * freq / fs
  let cos_w0 := env.cosf w0
  let sin_w0 := env.sinf w0
  let alpha := sin_w0 / 2 * env.sqrtf ((A + 1 / A) * (1 / S - 1) + 2)
  let a0 := (A + 1) - (A - 1) * cos_w0 + 2 * env.sqrtf A * alpha
  { b0 := (A * ((A + 1) + (A - 1) * cos_w0 + 2 * env.sqrtf A * alpha)) / a0
    b1 := (-2 * A * ((A - 1) + (A + 1) * cos_w0)) / a0
    b2 := (A * ((A + 1) + (A - 1) * cos_w0 - 2 * env.sqrtf A * alpha)) / a0
    a1 := (2 * ((A - 1) - (A + 1) * cos_w0)) / a0
    a2 := ((A + 1) - (A - 1) * cos_w0 - 2 * env.sqrtf A * alpha) / a0 }

/-- `calc_biquad_peaking` (Audio EQ Cookbook peaking EQ). -/
def calc_biquad_peaking (env : CEnv) (freq gain_db Q fs : ℚ) : biquad_coeffs_t :=
  let A := DB_TO_LINEAR env (gain_db / 2)
  let w0 := 2 * M_PI * freq / fs
  let cos_w0 := env.cosf w0
  let sin_w0 := env.sinf w0
  let alpha := sin_w0 / (2 * Q)
  let a0 := 1 + alpha / A
  { b0 := (1 + alpha * A) / a0
    b1 := (-2 * cos_w0) / a0
    b2 := (1 - alpha * A) / a0
    a1 := (-2 * cos_w0) / a0
    a2 := (1 - alpha / A) / a0 }

/-- `calc_biquad_highpass` (Audio EQ Cookbook high-pass). -/
def calc_biquad_highpass (env : CEnv) (freq Q fs : ℚ) : biquad_coeffs_t :=
  let w0 := 2 * M_PI * freq / fs
  let cos_w0 := env.cosf w0
  let sin_w0 := env.sinf w0
  let alpha := sin_w0 / (2 * Q)
  let a0 := 1 + alpha
  { b0 := ((1 + cos_w0) / 2) / a0
    b1 := (-(1 + cos_w0)) / a0
    b2 := ((1 + cos_w0) / 2) / a0
    a1 := (-2 * cos_w0) / a0
    a2 := (1 - alpha) / a0 }

/-- `calc_biquad_bypass`: unity filter. -/
def calc_biquad_bypass : biquad_coeffs_t := ⟨1, 0, 0, 0, 0⟩

/-- `calc_eq_band`: dispatch on the band's filter type (the C `switch`
sends `EQ_TYPE_PEAKING` and every unknown type to the peaking branch). -/
def calc_eq_band (env : CEnv) (p : eq_band_params_t) (fs : ℚ) : biquad_coeffs_t :=
  if p.type = EQ_TYPE_LOWSHELF then calc_biquad_lowshelf env p.freq p.gain_db p.q_or_slope fs
  else if p.type = EQ_TYPE_HIGHSHELF then calc_biquad_highshelf env p.freq p.gain_db p.q_or_slope fs
  else calc_biquad_peaking env p.freq p.gain_db p.q_or_slope fs

/-- `reset_biquad_state`: zeroed delay line. -/
def reset_biquad_state : biquad_state_t := ⟨0, 0⟩

/-- `biquad_process` (Direct Form II Transposed); returns the output
sample and the updated delay line. -/
def biquad_process (c : biquad_coeffs_t) (s : biquad_state_t) (x : ℚ) : ℚ × biquad_state_t :=
  let out := c.b0 * x + s.z1
  (out, ⟨c.b1 * x - c.a1 * out + s.z2, c.b2 * x - c.a2 * out⟩)

/-- `interpolate_coeffs`: one smoothing step of each coefficient toward
its target. -/
def interpolate_coeffs (current target : biquad_coeffs_t) (alpha : ℚ) : biquad_coeffs_t :=
  { b0 := current.b0 + alpha * (target.b0 - current.b0)
    b1 := current.b1 + alpha * (target.b1 - current.b1)
    b2 := current.b2 + alpha * (target.b2 - current.b2)
    a1 := current.a1 + alpha * (target.a1 - current.a1)
    a2 := current.a2 + alpha * (target.a2 - current.a2) }

/-- `calc_smooth_coeff`: one-pole smoothing coefficient for a time
constant in milliseconds at sample rate `fs`. -/
def calc_smooth_coeff (env : CEnv) (time_ms fs : ℚ) : ℚ :=
  let time_samples := time_ms / 1000 * fs
  let time_samples := if time_samples < 1 then 1 else time_samples
  1 - env.expf (-1 / time_samples)

/-- `volume_to_gain`: piecewise-linear dB curve mapping a 0-100 volume to
a linear gain. -/
def volume_to_gain (env : CEnv) (volume : ℕ) : ℚ :=
  if volume = 0 then 0
  else if 100 ≤ volume then 1
  else
    let v : ℚ := volume
    let db :=
      if 80 ≤ volume then -6 + (v - 80) * (6 / 20)
      else if 60 ≤ volume then -12 + (v - 60) * (6 / 20)
      else if 40 ≤ volume then -20 + (v - 40) * (8 / 20)
      else if 20 ≤ volume then -35 + (v - 20) * (15 / 20)
      else -60 + v * (25 / 20)
    DB_TO_LINEAR env db

/-- `calc_limiter_coeffs`: threshold and attack/release smoothing
coefficients of the limiter. -/
def calc_limiter_coeffs (env : CEnv) (s : dsp_state_t) : dsp_state_t :=
  { s with
    limiter_threshold := DB_TO_LINEAR env DSP_LIMITER_THRESHOLD_DB
    limiter_attack_coeff := calc_smooth_coeff env DSP_LIMITER_ATTACK_MS (s.sample_rate : ℚ)
    limiter_release_coeff := calc_smooth_coeff env DSP_LIMITER_RELEASE_MS (s.sample_rate : ℚ) }

/-- `update_filters`: recompute every coefficient target and every
smoothing-rate constant from the current configuration. -/
def update_filters (env : CEnv) (s : dsp_state_t) : dsp_state_t :=
  let fs : ℚ := s.sample_rate
  let s := { s with
    hpf_coeffs := calc_biquad_highpass env DSP_HPF_FREQ_HZ DSP_HPF_Q fs
    eq_target := fun i => calc_eq_band env (preset_params s.preset i) fs
    loudness_target := fun i => calc_eq_band env (loudness_params i) fs }
  let s := calc_limiter_coeffs env s
  { s with
    normalizer_attack_coeff := calc_smooth_coeff env DSP_NORMALIZER_ATTACK_MS fs
    normalizer_release_coeff := calc_smooth_coeff env DSP_NORMALIZER_RELEASE_MS fs
    smooth_coeff := calc_smooth_coeff env DSP_SMOOTHING_MS fs }

/-- `dsp_init`: build the engine state exactly as the C function does
(`memset` to zero, set defaults, `update_filters`, copy EQ targets to
current, bypass loudness filters, reset all delay lines). -/
def dsp_init (env : CEnv) (sample_rate : ℕ) : dsp_state_t :=
  let s : dsp_state_t := {
    sample_rate := sample_rate
    preset := DSP_PRESET_OFFICE
    loudness_enabled := false
    hpf_coeffs := ⟨0, 0, 0, 0, 0⟩
    eq_coeffs := fun _ => ⟨0, 0, 0, 0, 0⟩
    loudness_coeffs := fun _ => ⟨0, 0, 0, 0, 0⟩
    eq_target := fun _ => ⟨0, 0, 0, 0, 0⟩
    loudness_target := fun _ => ⟨0, 0, 0, 0, 0⟩
    hpf_state := fun _ => ⟨0, 0⟩
    eq_state := fun _ _ => ⟨0, 0⟩
    loudness_state := fun _ _ => ⟨0, 0⟩
    limiter := ⟨0, 1⟩
    limiter_threshold := 0
    limiter_attack_coeff := 0
    limiter_release_coeff := 0
    pre_gain := DB_TO_LINEAR env DSP_PRE_GAIN_DB
    pre_gain_target := DB_TO_LINEAR env DSP_PRE_GAIN_DB
    loudness_gain := 0
    loudness_gain_target := 0
    mute_gain := 1
    mute_gain_target := 1
    muted := false
    audio_duck_enabled := false
    audio_duck_gain := 1
    audio_duck_gain_target := 1
    volume_trim := env.volTrimDefault
    volume_gain := 1
    volume_gain_target := 1
    normalizer_enabled := false
    normalizer_envelope := 0
    normalizer_gain := 1
    normalizer_threshold := DB_TO_LINEAR env DSP_NORMALIZER_THRESHOLD_DB
    normalizer_ratio := 4
    normalizer_attack_coeff := 0
    normalizer_release_coeff := 0
    normalizer_makeup_gain := DB_TO_LINEAR env DSP_NORMALIZER_MAKEUP_DB
    smooth_coeff := 0
    limiter_active := false
    clipping_detected := false
    initialized := false }
  let s := update_filters env s
  { s with
    eq_coeffs := s.eq_target
    loudness_coeffs := fun _ => calc_biquad_bypass
    hpf_state := fun _ => reset_biquad_state
    eq_state := fun _ _ => reset_biquad_state
    loudness_state := fun _ _ => reset_biquad_state
    initialized := true }

/-- `dsp_set_sample_rate`: no-op error when uninitialized, no-op success
when the rate is unchanged, otherwise recompute coefficients and reset
every delay line. -/
def dsp_set_sample_rate (env : CEnv) (s : dsp_state_t) (sample_rate : ℕ) :
    esp_err_t × dsp_state_t :=
  if s.initialized = false then (.ESP_ERR_INVALID_STATE, s)
  else if sample_rate = s.sample_rate then (.ESP_OK, s)
  else
    let s := update_filters env { s with sample_rate := sample_rate }
    (.ESP_OK, { s with
      hpf_state := fun _ => reset_biquad_state
      eq_state := fun _ _ => reset_biquad_state
      loudness_state := fun _ _ => reset_biquad_state })

/-- `dsp_get_volume_cap`: 100, replaced by the Night cap under the NIGHT
preset, lowered by the normalizer reduction when that leaves a positive
cap. -/
def dsp_get_volume_cap (env : CEnv) (s : dsp_state_t) : ℕ :=
  let cap := 100
  let cap := if s.preset = DSP_PRESET_NIGHT then env.volCapNight else cap
  if s.normalizer_enabled = true ∧ env.volCapNormalizerReduction < cap then
    cap - env.volCapNormalizerReduction
  else cap

/-- `dsp_get_effective_volume`: the user volume trim clamped to the cap. -/
def dsp_get_effective_volume (env : CEnv) (s : dsp_state_t) : ℕ :=
  let cap := dsp_get_volume_cap env s
  if cap < s.volume_trim then cap else s.volume_trim

/-- `dsp_set_preset`: validate the id, no-op on the active preset,
otherwise retarget the four EQ bands and refresh the volume-gain target
from the (possibly capped) effective volume. -/
def dsp_set_preset (env : CEnv) (s : dsp_state_t) (preset : ℕ) : esp_err_t × dsp_state_t :=
  if DSP_PRESET_COUNT ≤ preset then (.ESP_ERR_INVALID_ARG, s)
  else if s.initialized = false then (.ESP_ERR_INVALID_STATE, s)
  else if preset = s.preset then (.ESP_OK, s)
  else
    let fs : ℚ := s.sample_rate
    let s := { s with
      preset := preset
      eq_target := fun i => calc_eq_band env (preset_params preset i) fs }
    let effective := dsp_get_effective_volume env s
    (.ESP_OK, { s with volume_gain_target := volume_to_gain env effective })

/-- `dsp_set_loudness`: no-op on equal state, otherwise flip the flag and
retarget the blend gain. -/
def dsp_set_loudness (s : dsp_state_t) (enabled : Bool) : esp_err_t × dsp_state_t :=
  if s.initialized = false then (.ESP_ERR_INVALID_STATE, s)
  else if enabled = s.loudness_enabled then (.ESP_OK, s)
  else (.ESP_OK, { s with
    loudness_enabled := enabled
    loudness_gain_target := if enabled then 1 else 0 })

/-- `dsp_set_mute`: no-op on equal state, otherwise retarget the mute
gain. -/
def dsp_set_mute (s : dsp_state_t) (muted : Bool) : esp_err_t × dsp_state_t :=
  if s.initialized = false then (.ESP_ERR_INVALID_STATE, s)
  else if muted = s.muted then (.ESP_OK, s)
  else (.ESP_OK, { s with
    muted := muted
    mute_gain_target := if muted then 0 else 1 })

/-- `dsp_set_audio_duck`: no-op on equal state, otherwise retarget the
duck gain at -12 dB or unity. -/
def dsp_set_audio_duck (env : CEnv) (s : dsp_state_t) (enabled : Bool) :
    esp_err_t × dsp_state_t :=
  if s.initialized = false then (.ESP_ERR_INVALID_STATE, s)
  else if enabled = s.audio_duck_enabled then (.ESP_OK, s)
  else (.ESP_OK, { s with
    audio_duck_enabled := enabled
    audio_duck_gain_target := if enabled then DB_TO_LINEAR env DSP_AUDIO_DUCK_GAIN_DB else 1 })

/-- `dsp_set_normalizer`: no-op on equal state; on a change flips the
flag, resets envelope and gain only in the enabling direction, and
refreshes the volume-gain target. -/
def dsp_set_normalizer (env : CEnv) (s : dsp_state_t) (enabled : Bool) :
    esp_err_t × dsp_state_t :=
  if s.initialized = false then (.ESP_ERR_INVALID_STATE, s)
  else if enabled = s.normalizer_enabled then (.ESP_OK, s)
  else
    let s := { s with normalizer_enabled := enabled }
    let s := if enabled then { s with normalizer_envelope := 0, normalizer_gain := 1 } else s
    let effective := dsp_get_effective_volume env s
    (.ESP_OK, { s with volume_gain_target := volume_to_gain env effective })

/-- `dsp_set_volume_trim`: clamp to 100, no-op on the current trim,
otherwise store it and retarget the volume gain from the capped
effective volume. -/
def dsp_set_volume_trim (env : CEnv) (s : dsp_state_t) (value : ℕ) :
    esp_err_t × dsp_state_t :=
  if s.initialized = false then (.ESP_ERR_INVALID_STATE, s)
  else
    let value := if 100 < value then 100 else value
    if value = s.volume_trim then (.ESP_OK, s)
    else
      let s := { s with volume_trim := value }
      let effective := dsp_get_effective_volume env s
      (.ESP_OK, { s with volume_gain_target := volume_to_gain env effective })

/-- Status record sent over the control channel (`dsp_status_t`). -/
structure dsp_status_t where
  preset : ℕ
  loudness : ℕ
  flags : ℕ
deriving DecidableEq

/-- `dsp_get_status`: build the status record; bit 0 is written
unconditionally, and the sticky clipping flag is cleared by the read.
(The C version also no-ops on a NULL pointer, which has no counterpart
here.) -/
def dsp_get_status (s : dsp_state_t) : dsp_status_t × dsp_state_t :=
  let flags := DSP_FLAG_LIMITER_ACTIVE
  let flags := if s.muted then flags ||| DSP_FLAG_MUTED else flags
  let flags := if s.audio_duck_enabled then flags ||| DSP_FLAG_AUDIO_DUCK else flags
  let flags := if s.normalizer_enabled then flags ||| DSP_FLAG_NORMALIZER else flags
  if s.clipping_detected then
    ({ preset := s.preset, loudness := if s.loudness_enabled then 1 else 0,
       flags := flags ||| DSP_FLAG_CLIPPING },
     { s with clipping_detected := false })
  else
    ({ preset := s.preset, loudness := if s.loudness_enabled then 1 else 0,
       flags := flags }, s)

/-- `INT16_TO_FLOAT(x) = x / 32768`. -/
def INT16_TO_FLOAT (x : ℤ) : ℚ := (x : ℚ) / 32768

/-- Truncation toward zero, the semantics of C's float-to-int cast. -/
def trunc_to_int (q : ℚ) : ℤ := if 0 ≤ q then ⌊q⌋ else ⌈q⌉

/-- `FLOAT_TO_INT16(x)`: scale by 32768, clamp to the int16 range, cast. -/
def FLOAT_TO_INT16 (x : ℚ) : ℤ := trunc_to_int (max (-32768) (min 32767 (x * 32768)))

/-- Pre-gain stage of `dsp_process`: advance the smoothed pre-gain and
apply it. -/
def pre_gain_stage (s : dsp_state_t) (l r : ℚ) : dsp_state_t × ℚ × ℚ :=
  let g := s.pre_gain + s.smooth_coeff * (s.pre_gain_target - s.pre_gain)
  ({ s with pre_gain := g }, l * g, r * g)

/-- High-pass stage: run both channels through the fixed HPF. -/
def hpf_stage (s : dsp_state_t) (l r : ℚ) : dsp_state_t × ℚ × ℚ :=
  let pl := biquad_process s.hpf_coeffs (s.hpf_state 0) l
  let pr := biquad_process s.hpf_coeffs (s.hpf_state 1) r
  ({ s with hpf_state := ![pl.2, pr.2] }, pl.1, pr.1)

/-- Preset-EQ stage: for each of the four bands, smooth the coefficients
toward their target, then filter both channels (the source's `for` loop,
unrolled). -/
def eq_stage (s : dsp_state_t) (l r : ℚ) : dsp_state_t × ℚ × ℚ :=
  let c0 := interpolate_coeffs (s.eq_coeffs 0) (s.eq_target 0) s.smooth_coeff
  let p00 := biquad_process c0 (s.eq_state 0 0) l
  let p01 := biquad_process c0 (s.eq_state 0 1) r
  let c1 := interpolate_coeffs (s.eq_coeffs 1) (s.eq_target 1) s.smooth_coeff
  let p10 := biquad_process c1 (s.eq_state 1 0) p00.1
  let p11 := biquad_process c1 (s.eq_state 1 1) p01.1
  let c2 := interpolate_coeffs (s.eq_coeffs 2) (s.eq_target 2) s.smooth_coeff
  let p20 := biquad_process c2 (s.eq_state 2 0) p10.1
  let p21 := biquad_process c2 (s.eq_state 2 1) p11.1
  let c3 := interpolate_coeffs (s.eq_coeffs 3) (s.eq_target 3) s.smooth_coeff
  let p30 := biquad_process c3 (s.eq_state 3 0) p20.1
  let p31 := biquad_process c3 (s.eq_state 3 1) p21.1
  ({ s with
      eq_coeffs := ![c0, c1, c2, c3]
      eq_state := ![![p00.2, p01.2], ![p10.2, p11.2], ![p20.2, p21.2], ![p30.2, p31.2]] },
   p30.1, p31.1)

/-- Loudness stage of `dsp_process`: advance the smoothed blend gain;
when it exceeds 0.001 smooth the overlay coefficients, filter both
channels and cross-fade with the dry signal, otherwise pass the dry
signal through untouched. -/
def loudness_stage (s : dsp_state_t) (l r : ℚ) : dsp_state_t × ℚ × ℚ :=
  let g := s.loudness_gain + s.smooth_coeff * (s.loudness_gain_target - s.loudness_gain)
  let s := { s with loudness_gain := g }
  if (0.001 : ℚ) < g then
    let c0 := interpolate_coeffs (s.loudness_coeffs 0) (s.loudness_target 0) s.smooth_coeff
    let q00 := biquad_process c0 (s.loudness_state 0 0) l
    let q01 := biquad_process c0 (s.loudness_state 0 1) r
    let c1 := interpolate_coeffs (s.loudness_coeffs 1) (s.loudness_target 1) s.smooth_coeff
    let q10 := biquad_process c1 (s.loudness_state 1 0) q00.1
    let q11 := biquad_process c1 (s.loudness_state 1 1) q01.1
    ({ s with
        loudness_coeffs := ![c0, c1]
        loudness_state := ![![q00.2, q01.2], ![q10.2, q11.2]] },
     l * (1 - g) + q10.1 * g, r * (1 - g) + q11.1 * g)
  else (s, l, r)

/-- Normalizer stage (identical in the int16 and float paths): peak
envelope follower and ratio-compression gain with makeup gain. -/
def normalizer_stage (env : CEnv) (s : dsp_state_t) (l r : ℚ) : dsp_state_t × ℚ × ℚ :=
  if s.normalizer_enabled then
    let norm_peak := max |l| |r|
    let e := if s.normalizer_envelope < norm_peak
      then s.normalizer_envelope + s.normalizer_attack_coeff * (norm_peak - s.normalizer_envelope)
      else s.normalizer_envelope + s.normalizer_release_coeff * (norm_peak - s.normalizer_envelope)
    let g := if s.normalizer_threshold < e
      then 1 / env.powf (e / s.normalizer_threshold) (1 - 1 / s.normalizer_ratio)
      else 1
    ({ s with normalizer_envelope := e, normalizer_gain := g },
     l * (g * s.normalizer_makeup_gain), r * (g * s.normalizer_makeup_gain))
  else (s, l, r)

/-- Limiter stage of `dsp_process`: envelope follower, hard-ceiling gain,
and the `limiter_active` bookkeeping flag. -/
def limiter_stage (s : dsp_state_t) (l r : ℚ) : dsp_state_t × ℚ × ℚ :=
  let peak := max |l| |r|
  let e := if s.limiter.envelope < peak
    then s.limiter.envelope + s.limiter_attack_coeff * (peak - s.limiter.envelope)
    else s.limiter.envelope + s.limiter_release_coeff * (peak - s.limiter.envelope)
  if s.limiter_threshold < e then
    let g := s.limiter_threshold / e
    ({ s with limiter := ⟨e, g⟩, limiter_active := true }, l * g, r * g)
  else
    ({ s with limiter := ⟨e, 1⟩, limiter_active := false }, l * 1, r * 1)

/-- Hard-clip stage: clamp to `[-1, 1]` and raise the sticky clipping
flag when either channel exceeds the range. -/
def clip_stage (s : dsp_state_t) (l r : ℚ) : dsp_state_t × ℚ × ℚ :=
  if 1 < |l| ∨ 1 < |r| then
    ({ s with clipping_detected := true },
     max (-1) (min 1 l), max (-1) (min 1 r))
  else (s, l, r)

/-- Volume-trim stage: advance the smoothed volume gain and apply it. -/
def volume_stage (s : dsp_state_t) (l r : ℚ) : dsp_state_t × ℚ × ℚ :=
  let g := s.volume_gain + s.smooth_coeff * (s.volume_gain_target - s.volume_gain)
  ({ s with volume_gain := g }, l * g, r * g)

/-- Audio-duck stage: advance the smoothed duck gain and apply it. -/
def duck_stage (s : dsp_state_t) (l r : ℚ) : dsp_state_t × ℚ × ℚ :=
  let g := s.audio_duck_gain + s.smooth_coeff * (s.audio_duck_gain_target - s.audio_duck_gain)
  ({ s with audio_duck_gain := g }, l * g, r * g)

/-- Mute stage: advance the smoothed mute gain and apply it. -/
def mute_stage (s : dsp_state_t) (l r : ℚ) : dsp_state_t × ℚ × ℚ :=
  let g := s.mute_gain + s.smooth_coeff * (s.mute_gain_target - s.mute_gain)
  ({ s with mute_gain := g }, l * g, r * g)

/-- One interleaved stereo frame of `dsp_process`. -/
def dsp_process_frame (env : CEnv) (s : dsp_state_t) (inl inr : ℤ) :
    dsp_state_t × ℤ × ℤ :=
  let a1 := pre_gain_stage s (INT16_TO_FLOAT inl) (INT16_TO_FLOAT inr)
  let a2 := hpf_stage a1.1 a1.2.1 a1.2.2
  let a3 := eq_stage a2.1 a2.2.1 a2.2.2
  let a4 := loudness_stage a3.1 a3.2.1 a3.2.2
  let a5 := normalizer_stage env a4.1 a4.2.1 a4.2.2
  let a6 := limiter_stage a5.1 a5.2.1 a5.2.2
  let a7 := clip_stage a6.1 a6.2.1 a6.2.2
  let a8 := volume_stage a7.1 a7.2.1 a7.2.2
  let a9 := duck_stage a8.1 a8.2.1 a8.2.2
  let a10 := mute_stage a9.1 a9.2.1 a9.2.2
  (a10.1, FLOAT_TO_INT16 a10.2.1, FLOAT_TO_INT16 a10.2.2)

/-- The frame loop of `dsp_process`. -/
def dsp_process_go (env : CEnv) (s : dsp_state_t) :
    List (ℤ × ℤ) → dsp_state_t × List (ℤ × ℤ)
  | [] => (s, [])
  | f :: rest =>
    let a := dsp_process_frame env s f.1 f.2
    let b := dsp_process_go env a.1 rest
    (b.1, (a.2.1, a.2.2) :: b.2)

/-- `dsp_process` on a buffer of interleaved stereo frames: early return
(buffer untouched) when uninitialized or empty, otherwise the frame
loop.  (The NULL-pointer guard of the C code has no counterpart.) -/
def dsp_process (env : CEnv) (s : dsp_state_t) (frames : List (ℤ × ℤ)) :
    dsp_state_t × List (ℤ × ℤ) :=
  if s.initialized = false ∨ frames = [] then (s, frames)
  else dsp_process_go env s frames

/-- Float-path limiter: as `limiter_stage` but without touching the
`limiter_active` flag (the float path never writes it). -/
def limiter_stage_float (s : dsp_state_t) (l r : ℚ) : dsp_state_t × ℚ × ℚ :=
  let peak := max |l| |r|
  let e := if s.limiter.envelope < peak
    then s.limiter.envelope + s.limiter_attack_coeff * (peak - s.limiter.envelope)
    else s.limiter.envelope + s.limiter_release_coeff * (peak - s.limiter.envelope)
  if s.limiter_threshold < e then
    let g := s.limiter_threshold / e
    ({ s with limiter := ⟨e, g⟩ }, l * g, r * g)
  else
    ({ s with limiter := ⟨e, 1⟩ }, l * 1, r * 1)

/-- One frame of `dsp_process_float`: no gain or coefficient smoothing,
loudness applied wet (no cross-fade) when the blend gain exceeds 0.001,
no clipping bookkeeping, and a final clamp to `[-1, 1]`. -/
def dsp_process_float_frame (env : CEnv) (s : dsp_state_t) (l r : ℚ) :
    dsp_state_t × ℚ × ℚ :=
  let l1 := l * s.pre_gain
  let r1 := r * s.pre_gain
  let a2 := hpf_stage s l1 r1
  let s2 := a2.1
  let p0 := biquad_process (s2.eq_coeffs 0) (s2.eq_state 0 0) a2.2.1
  let q0 := biquad_process (s2.eq_coeffs 0) (s2.eq_state 0 1) a2.2.2
  let p1 := biquad_process (s2.eq_coeffs 1) (s2.eq_state 1 0) p0.1
  let q1 := biquad_process (s2.eq_coeffs 1) (s2.eq_state 1 1) q0.1
  let p2 := biquad_process (s2.eq_coeffs 2) (s2.eq_state 2 0) p1.1
  let q2 := biquad_process (s2.eq_coeffs 2) (s2.eq_state 2 1) q1.1
  let p3 := biquad_process (s2.eq_coeffs 3) (s2.eq_state 3 0) p2.1
  let q3 := biquad_process (s2.eq_coeffs 3) (s2.eq_state 3 1) q2.1
  let s3 := { s2 with
    eq_state := ![![p0.2, q0.2], ![p1.2, q1.2], ![p2.2, q2.2], ![p3.2, q3.2]] }
  let a4 :=
    if (0.001 : ℚ) < s3.loudness_gain then
      let u0 := biquad_process (s3.loudness_coeffs 0) (s3.loudness_state 0 0) p3.1
      let v0 := biquad_process (s3.loudness_coeffs 0) (s3.loudness_state 0 1) q3.1
      let u1 := biquad_process (s3.loudness_coeffs 1) (s3.loudness_state 1 0) u0.1
      let v1 := biquad_process (s3.loudness_coeffs 1) (s3.loudness_state 1 1) v0.1
      ({ s3 with loudness_state := ![![u0.2, v0.2], ![u1.2, v1.2]] }, u1.1, v1.1)
    else (s3, p3.1, q3.1)
  let a5 := normalizer_stage env a4.1 a4.2.1 a4.2.2
  let a6 := limiter_stage_float a5.1 a5.2.1 a5.2.2
  let l7 := a6.2.1 * a6.1.volume_gain * a6.1.audio_duck_gain * a6.1.mute_gain
  let r7 := a6.2.2 * a6.1.volume_gain * a6.1.audio_duck_gain * a6.1.mute_gain
  (a6.1, max (-1) (min 1 l7), max (-1) (min 1 r7))

/-- The frame loop of `dsp_process_float`. -/
def dsp_process_float_go (env : CEnv) (s : dsp_state_t) :
    List (ℚ × ℚ) → dsp_state_t × List (ℚ × ℚ)
  | [] => (s, [])
  | f :: rest =>
    let a := dsp_process_float_frame env s f.1 f.2
    let b := dsp_process_float_go env a.1 rest
    (b.1, (a.2.1, a.2.2) :: b.2)

/-- `dsp_process_float` on planar stereo frames: early return when
uninitialized or empty, otherwise the frame loop. -/
def dsp_process_float (env : CEnv) (s : dsp_state_t) (frames : List (ℚ × ℚ)) :
    dsp_state_t × List (ℚ × ℚ) :=
  if s.initialized = false ∨ frames = [] then (s, frames)
  else dsp_process_float_go env s frames

/-- Concrete environment for evaluating the model on closed inputs:
arbitrary simple values for the abstracted math functions, and the
spec's values for the volume-cap constants. -/
def envW : CEnv :=
  { expf := fun _ => 0
    powf := fun _ _ => 1
    cosf := fun _ => 0
    sinf := fun _ => 0
    sqrtf := fun _ => 1
    volCapNight := 80
    volCapNormalizerReduction := 10
    volTrimDefault := 70 }

/-- A freshly initialized engine at 44100 Hz under `envW`. -/
def sW : dsp_state_t := dsp_init envW 44100

/-- `sW` with the NIGHT preset and the normalizer active. -/
def sWn : dsp_state_t := { sW with preset := DSP_PRESET_NIGHT, normalizer_enabled := true }

/-- State with normalizer history, used to exercise `dsp_set_normalizer`. -/
def sC4 : dsp_state_t :=
  { sW with normalizer_enabled := true, normalizer_envelope := 7, normalizer_gain := 3 }

/-- State with non-zero high-pass delay registers at 44100 Hz. -/
def sC3 : dsp_state_t := { sW with hpf_state := ![⟨1, 2⟩, ⟨0, 0⟩] }

/-- A hand-written engine state with literal fields (identity filters,
unit gains, smoothing frozen at 0), convenient for evaluating single
stages on closed inputs. -/
def sBase : dsp_state_t where
  sample_rate := 44100
  preset := 0
  loudness_enabled := false
  hpf_coeffs := ⟨1, 0, 0, 0, 0⟩
  eq_coeffs := fun _ => ⟨1, 0, 0, 0, 0⟩
  loudness_coeffs := fun _ => ⟨1, 0, 0, 0, 0⟩
  eq_target := fun _ => ⟨1, 0, 0, 0, 0⟩
  loudness_target := fun _ => ⟨1, 0, 0, 0, 0⟩
  hpf_state := fun _ => ⟨0, 0⟩
  eq_state := fun _ _ => ⟨0, 0⟩
  loudness_state := fun _ _ => ⟨0, 0⟩
  limiter := ⟨0, 1⟩
  limiter_threshold := 1
  limiter_attack_coeff := 0
  limiter_release_coeff := 0
  pre_gain := 1
  pre_gain_target := 1
  loudness_gain := 0
  loudness_gain_target := 0
  mute_gain := 1
  mute_gain_target := 1
  muted := false
  audio_duck_enabled := false
  audio_duck_gain := 1
  audio_duck_gain_target := 1
  volume_trim := 70
  volume_gain := 1
  volume_gain_target := 1
  normalizer_enabled := false
  normalizer_envelope := 0
  normalizer_gain := 1
  normalizer_threshold := 1
  normalizer_ratio := 4
  normalizer_attack_coeff := 0
  normalizer_release_coeff := 0
  normalizer_makeup_gain := 1
  smooth_coeff := 0
  limiter_active := false
  clipping_detected := false
  initialized := true

/-- `sBase` with loudness faded out but non-trivial overlay coefficients
retained (the situation after loudness has been toggled on and off). -/
def sC5 : dsp_state_t :=
  { sBase with loudness_coeffs := ![⟨0, 1, 0, 0, 0⟩, ⟨1, 0, 0, 0, 0⟩] }

/-- `sBase` with loudness fully blended in. -/
def sC5p : dsp_state_t :=
  { sBase with loudness_gain := 1, loudness_gain_target := 1 }

/-- `sBase` with the sticky clipping flag already raised. -/
def sBaseClip : dsp_state_t := { sBase with clipping_detected := true }

/-- C9: `calc_smooth_coeff(t, fs)` equals `1 - exp(-1 / max(1, (t/1000)*fs))`,
the exponential one-pole formula with the effective number of samples
floored at 1. -/
theorem calc_smooth_coeff_formula (env : CEnv) (t fs : ℚ) :
    calc_smooth_coeff env t fs = 1 - env.expf (-1 / max 1 (t / 1000 * fs)) := by
  rcases lt_or_le (t / 1000 * fs) 1 with h | h
  · simp only [calc_smooth_coeff, if_pos h, max_eq_left h.le]
  · simp only [calc_smooth_coeff, if_neg (not_lt.2 h), max_eq_right h]

/-- C2: the effective volume never exceeds the volume cap; under the
NIGHT preset with the normalizer enabled the cap is
`100 - 20 - normalizerReduction` (given the spec's Night cap of 80 and a
reduction below it); and the cap never reaches zero. -/
theorem volume_cap_spec (env : CEnv) (s : dsp_state_t)
    (hnight : env.volCapNight = 80) (hred : env.volCapNormalizerReduction < 80) :
    dsp_get_effective_volume env s ≤ dsp_get_volume_cap env s ∧
    (s.preset = DSP_PRESET_NIGHT → s.normalizer_enabled = true →
      dsp_get_volume_cap env s = 100 - 20 - env.volCapNormalizerReduction) ∧
    1 ≤ dsp_get_volume_cap env s := by
  refine ⟨?_, fun hp hn => ?_, ?_⟩
  · simp only [dsp_get_effective_volume]
    split
    · exact Nat.le_refl _
    · exact Nat.le_of_not_lt (by assumption)
  · simp [dsp_get_volume_cap, hp, hn, hnight, DSP_PRESET_NIGHT]
    omega
  · simp only [dsp_get_volume_cap]
    split_ifs <;> omega

/-- Witness for C2 at a concrete Night-plus-normalizer state. -/
theorem volume_cap_spec_witness :
    dsp_get_volume_cap envW sWn = 100 - 20 - envW.volCapNormalizerReduction ∧
    dsp_get_effective_volume envW sWn ≤ dsp_get_volume_cap envW sWn := by
  have h := volume_cap_spec envW sWn (by decide) (by decide)
  exact ⟨h.2.1 rfl rfl, h.1⟩

/-- C7: on an initialized engine every setter called with the already
active value (for the volume trim, after its clamp to `[0,100]`) returns
`ESP_OK` and leaves the whole engine state unchanged. -/
theorem setters_idempotent (env : CEnv) (s : dsp_state_t)
    (hinit : s.initialized = true) :
    (s.preset < DSP_PRESET_COUNT → dsp_set_preset env s s.preset = (.ESP_OK, s)) ∧
    dsp_set_loudness s s.loudness_enabled = (.ESP_OK, s) ∧
    dsp_set_mute s s.muted = (.ESP_OK, s) ∧
    dsp_set_audio_duck env s s.audio_duck_enabled = (.ESP_OK, s) ∧
    dsp_set_normalizer env s s.normalizer_enabled = (.ESP_OK, s) ∧
    ∀ value : ℕ, (if 100 < value then 100 else value) = s.volume_trim →
      dsp_set_volume_trim env s value = (.ESP_OK, s) := by
  refine ⟨fun hp => ?_, ?_, ?_, ?_, ?_, fun v hv => ?_⟩
  · simp [dsp_set_preset, hinit, Nat.not_le.2 hp]
  · simp [dsp_set_loudness, hinit]
  · simp [dsp_set_mute, hinit]
  · simp [dsp_set_audio_duck, hinit]
  · simp [dsp_set_normalizer, hinit]
  · simp only [dsp_set_volume_trim, hinit]
    simp [hv]

/-- Witness for C7 on the freshly initialized state. -/
theorem setters_idempotent_witness :
    dsp_set_preset envW sW sW.preset = (.ESP_OK, sW) ∧
    dsp_set_mute sW sW.muted = (.ESP_OK, sW) ∧
    dsp_set_volume_trim envW sW 70 = (.ESP_OK, sW) := by
  have h := setters_idempotent envW sW (by decide)
  exact ⟨h.1 (by decide), h.2.2.1, h.2.2.2.2.2 70 (by decide)⟩

/-- C6: switching to a different valid preset succeeds and changes only
the `preset` field, the EQ target coefficients and the volume-gain
target; every delay register and every current coefficient set is left
untouched. -/
theorem set_preset_preserves_filter_state (env : CEnv) (s : dsp_state_t) (p : ℕ)
    (hp : p < DSP_PRESET_COUNT) (hinit : s.initialized = true) (hne : p ≠ s.preset) :
    (dsp_set_preset env s p).1 = .ESP_OK ∧
    (dsp_set_preset env s p).2 = { s with
      preset := p
      eq_target := fun i => calc_eq_band env (preset_params p i) (s.sample_rate : ℚ)
      volume_gain_target := volume_to_gain env (dsp_get_effective_volume env
        { s with
          preset := p
          eq_target := fun i => calc_eq_band env (preset_params p i) (s.sample_rate : ℚ) }) } := by
  simp [dsp_set_preset, Nat.not_le.2 hp, hinit, hne]

/-- Witness for C6: switching the fresh OFFICE engine to FULL keeps all
delay state. -/
theorem set_preset_preserves_filter_state_witness :
    (dsp_set_preset envW sW 1).1 = .ESP_OK ∧
    (dsp_set_preset envW sW 1).2.eq_state = sW.eq_state ∧
    (dsp_set_preset envW sW 1).2.eq_coeffs = sW.eq_coeffs := by
  have h := set_preset_preserves_filter_state envW sW 1 (by decide) (by decide) (by decide)
  exact ⟨h.1, by rw [h.2], by rw [h.2]⟩

/-- C4 counterexample: disabling the normalizer (a state-changing call)
does not reset the envelope to 0 nor the gain to 1 — both keep their
history. -/
theorem set_normalizer_disable_no_reset_cex :
    sC4.initialized = true ∧ sC4.normalizer_enabled = true ∧
    (dsp_set_normalizer envW sC4 false).1 = .ESP_OK ∧
    (dsp_set_normalizer envW sC4 false).2.normalizer_envelope = 7 ∧
    (dsp_set_normalizer envW sC4 false).2.normalizer_gain = 3 := by
  decide

/-- C4 amended: a state-changing `dsp_set_normalizer` resets the envelope
to 0 and the gain to 1 only in the enabling direction; disabling leaves
both untouched. -/
theorem set_normalizer_reset_only_on_enable (env : CEnv) (s : dsp_state_t) (b : Bool)
    (hinit : s.initialized = true) (hch : b ≠ s.normalizer_enabled) :
    (dsp_set_normalizer env s b).1 = .ESP_OK ∧
    (dsp_set_normalizer env s b).2.normalizer_enabled = b ∧
    (b = true → (dsp_set_normalizer env s b).2.normalizer_envelope = 0 ∧
      (dsp_set_normalizer env s b).2.normalizer_gain = 1) ∧
    (b = false → (dsp_set_normalizer env s b).2.normalizer_envelope = s.normalizer_envelope ∧
      (dsp_set_normalizer env s b).2.normalizer_gain = s.normalizer_gain) := by
  cases b <;> simp [dsp_set_normalizer, hinit, hch]

/-- Witness for C4 (amended) in both directions. -/
theorem set_normalizer_reset_only_on_enable_witness :
    (dsp_set_normalizer envW sW true).2.normalizer_envelope = 0 ∧
    (dsp_set_normalizer envW sC4 false).2.normalizer_gain = sC4.normalizer_gain := by
  have h1 := set_normalizer_reset_only_on_enable envW sW true (by decide) (by decide)
  have h2 := set_normalizer_reset_only_on_enable envW sC4 false (by decide) (by decide)
  exact ⟨(h1.2.2.1 rfl).1, (h2.2.2.2 rfl).2⟩

/-- C3 counterexample: `dsp_set_sample_rate` with the already configured
rate returns `ESP_OK` but leaves the delay registers untouched (no
reset takes place). -/
theorem set_sample_rate_equal_rate_cex :
    sC3.initialized = true ∧ sC3.sample_rate = 44100 ∧
    (dsp_set_sample_rate envW sC3 44100).1 = .ESP_OK ∧
    ((dsp_set_sample_rate envW sC3 44100).2.hpf_state 0).z1 = 1 := by
  decide

/-- C3 amended: `dsp_set_sample_rate` with a rate different from the
current one resets every delay register of every filter and recomputes
every coefficient target and smoothing constant for the new rate; with
the current rate it is a successful no-op. -/
theorem set_sample_rate_resets (env : CEnv) (s : dsp_state_t) (rate : ℕ)
    (hinit : s.initialized = true) :
    (rate ≠ s.sample_rate →
      (dsp_set_sample_rate env s rate).1 = .ESP_OK ∧
      (∀ ch, (dsp_set_sample_rate env s rate).2.hpf_state ch = reset_biquad_state) ∧
      (∀ b ch, (dsp_set_sample_rate env s rate).2.eq_state b ch = reset_biquad_state) ∧
      (∀ b ch, (dsp_set_sample_rate env s rate).2.loudness_state b ch = reset_biquad_state) ∧
      (dsp_set_sample_rate env s rate).2.eq_target =
        (fun i => calc_eq_band env (preset_params s.preset i) (rate : ℚ)) ∧
      (dsp_set_sample_rate env s rate).2.loudness_target =
        (fun i => calc_eq_band env (loudness_params i) (rate : ℚ)) ∧
      (dsp_set_sample_rate env s rate).2.hpf_coeffs =
        calc_biquad_highpass env DSP_HPF_FREQ_HZ DSP_HPF_Q (rate : ℚ) ∧
      (dsp_set_sample_rate env s rate).2.limiter_threshold =
        DB_TO_LINEAR env DSP_LIMITER_THRESHOLD_DB ∧
      (dsp_set_sample_rate env s rate).2.limiter_attack_coeff =
        calc_smooth_coeff env DSP_LIMITER_ATTACK_MS (rate : ℚ) ∧
      (dsp_set_sample_rate env s rate).2.limiter_release_coeff =
        calc_smooth_coeff env DSP_LIMITER_RELEASE_MS (rate : ℚ) ∧
      (dsp_set_sample_rate env s rate).2.normalizer_attack_coeff =
        calc_smooth_coeff env DSP_NORMALIZER_ATTACK_MS (rate : ℚ) ∧
      (dsp_set_sample_rate env s rate).2.normalizer_release_coeff =
        calc_smooth_coeff env DSP_NORMALIZER_RELEASE_MS (rate : ℚ) ∧
      (dsp_set_sample_rate env s rate).2.smooth_coeff =
        calc_smooth_coeff env DSP_SMOOTHING_MS (rate : ℚ) ∧
      (dsp_set_sample_rate env s rate).2.preset = s.preset ∧
      (dsp_set_sample_rate env s rate).2.loudness_enabled = s.loudness_enabled ∧
      (dsp_set_sample_rate env s rate).2.sample_rate = rate) ∧
    dsp_set_sample_rate env s s.sample_rate = (.ESP_OK, s) := by
  constructor
  · intro h
    simp [dsp_set_sample_rate, hinit, h, update_filters, calc_limiter_coeffs]
  · simp [dsp_set_sample_rate, hinit]

/-- Witness for C3 (amended): reconfiguring `sC3` from 44100 to 48000
does clear its dirty delay register. -/
theorem set_sample_rate_resets_witness :
    (dsp_set_sample_rate envW sC3 48000).1 = .ESP_OK ∧
    (dsp_set_sample_rate envW sC3 48000).2.hpf_state 0 = reset_biquad_state ∧
    dsp_set_sample_rate envW sC3 sC3.sample_rate = (.ESP_OK, sC3) := by
  have h := set_sample_rate_resets envW sC3 48000 (by decide)
  exact ⟨(h.1 (by decide)).1, (h.1 (by decide)).2.1 0,
    set_sample_rate_resets envW sC3 sC3.sample_rate (by decide) |>.2⟩

/-- C1 counterexample: in a state whose limiter gain is exactly 1 the
status still reports the limiterActive bit as set, so the bit is not
equivalent to `gain < 1`. -/
theorem status_limiter_bit_cex :
    sW.limiter.gain = 1 ∧
    ¬ (((dsp_get_status sW).1.flags.testBit 0 = true) ↔ sW.limiter.gain < 1) := by
  decide

/-- C1 amended: `dsp_get_status` writes the limiterActive bit
unconditionally — for every engine state bit 0 of the returned flags is
set, whatever the limiter gain is. -/
theorem status_limiter_bit_always_set (s : dsp_state_t) :
    (dsp_get_status s).1.flags.testBit 0 = true := by
  cases hm : s.muted <;> cases hd : s.audio_duck_enabled <;>
    cases hn : s.normalizer_enabled <;> cases hc : s.clipping_detected <;>
      simp [dsp_get_status, hm, hd, hn, hc, DSP_FLAG_LIMITER_ACTIVE, DSP_FLAG_MUTED,
        DSP_FLAG_AUDIO_DUCK, DSP_FLAG_NORMALIZER, DSP_FLAG_CLIPPING]

/-- C5 counterexample: with the blend gain at 0 the loudness stage leaves
its delay state untouched, while an unconditional evaluation of the
overlay biquads would have advanced it — the biquads are not evaluated
on every frame. -/
theorem loudness_stage_conditional_cex :
    (loudness_stage sC5 1 0).1.loudness_state 0 0 = sC5.loudness_state 0 0 ∧
    (biquad_process (interpolate_coeffs (sC5.loudness_coeffs 0) (sC5.loudness_target 0)
        sC5.smooth_coeff) (sC5.loudness_state 0 0) 1).2 ≠ sC5.loudness_state 0 0 := by
  constructor
  · have hg : ¬ ((0.001 : ℚ) <
        sC5.loudness_gain + sC5.smooth_coeff * (sC5.loudness_gain_target - sC5.loudness_gain)) := by
      norm_num [sC5, sBase]
    simp [loudness_stage, hg]
  · simp [biquad_process, interpolate_coeffs, sC5, sBase]

/-- C5 amended: the loudness stage first advances the smoothed blend
gain; only when the result exceeds 0.001 does it smooth the overlay
coefficients, run both biquads (advancing their delay state) and emit
`dry*(1-blend) + wet*blend` per channel; otherwise coefficients and
delay state stay put and the dry signal passes through. -/
theorem loudness_stage_crossfade (s : dsp_state_t) (l r : ℚ) :
    (loudness_stage s l r).1.loudness_gain =
      s.loudness_gain + s.smooth_coeff * (s.loudness_gain_target - s.loudness_gain) ∧
    ((0.001 : ℚ) < s.loudness_gain + s.smooth_coeff * (s.loudness_gain_target - s.loudness_gain) →
      (loudness_stage s l r).1.loudness_coeffs =
        ![interpolate_coeffs (s.loudness_coeffs 0) (s.loudness_target 0) s.smooth_coeff,
          interpolate_coeffs (s.loudness_coeffs 1) (s.loudness_target 1) s.smooth_coeff] ∧
      (loudness_stage s l r).1.loudness_state =
        ![![(biquad_process (interpolate_coeffs (s.loudness_coeffs 0) (s.loudness_target 0)
                s.smooth_coeff) (s.loudness_state 0 0) l).2,
            (biquad_process (interpolate_coeffs (s.loudness_coeffs 0) (s.loudness_target 0)
                s.smooth_coeff) (s.loudness_state 0 1) r).2],
          ![(biquad_process (interpolate_coeffs (s.loudness_coeffs 1) (s.loudness_target 1)
                s.smooth_coeff) (s.loudness_state 1 0)
                (biquad_process (interpolate_coeffs (s.loudness_coeffs 0) (s.loudness_target 0)
                  s.smooth_coeff) (s.loudness_state 0 0) l).1).2,
            (biquad_process (interpolate_coeffs (s.loudness_coeffs 1) (s.loudness_target 1)
                s.smooth_coeff) (s.loudness_state 1 1)
                (biquad_process (interpolate_coeffs (s.loudness_coeffs 0) (s.loudness_target 0)
                  s.smooth_coeff) (s.loudness_state 0 1) r).1).2]] ∧
      (loudness_stage s l r).2.1 =
        l * (1 - (s.loudness_gain + s.smooth_coeff * (s.loudness_gain_target - s.loudness_gain))) +
        (biquad_process (interpolate_coeffs (s.loudness_coeffs 1) (s.loudness_target 1)
            s.smooth_coeff) (s.loudness_state 1 0)
            (biquad_process (interpolate_coeffs (s.loudness_coeffs 0) (s.loudness_target 0)
              s.smooth_coeff) (s.loudness_state 0 0) l).1).1 *
          (s.loudness_gain + s.smooth_coeff * (s.loudness_gain_target - s.loudness_gain)) ∧
      (loudness_stage s l r).2.2 =
        r * (1 - (s.loudness_gain + s.smooth_coeff * (s.loudness_gain_target - s.loudness_gain))) +
        (biquad_process (interpolate_coeffs (s.loudness_coeffs 1) (s.loudness_target 1)
            s.smooth_coeff) (s.loudness_state 1 1)
            (biquad_process (interpolate_coeffs (s.loudness_coeffs 0) (s.loudness_target 0)
              s.smooth_coeff) (s.loudness_state 0 1) r).1).1 *
          (s.loudness_gain + s.smooth_coeff * (s.loudness_gain_target - s.loudness_gain))) ∧
    (¬ (0.001 : ℚ) < s.loudness_gain + s.smooth_coeff * (s.loudness_gain_target - s.loudness_gain) →
      (loudness_stage s l r).1.loudness_coeffs = s.loudness_coeffs ∧
      (loudness_stage s l r).1.loudness_state = s.loudness_state ∧
      (loudness_stage s l r).2.1 = l ∧ (loudness_stage s l r).2.2 = r) := by
  refine ⟨?_, fun h => ?_, fun h => ?_⟩
  · simp only [loudness_stage]
    split <;> rfl
  · simp [loudness_stage, if_pos h]
  · simp [loudness_stage, if_neg h]

/-- Witness for C5 (amended), exercising both branches on closed states. -/
theorem loudness_stage_crossfade_witness :
    (loudness_stage sC5 1 0).1.loudness_state = sC5.loudness_state ∧
    (loudness_stage sC5 1 0).2.1 = 1 ∧
    (loudness_stage sC5p 1 0).1.loudness_coeffs =
      ![interpolate_coeffs (sC5p.loudness_coeffs 0) (sC5p.loudness_target 0) sC5p.smooth_coeff,
        interpolate_coeffs (sC5p.loudness_coeffs 1) (sC5p.loudness_target 1) sC5p.smooth_coeff] := by
  have h1 := loudness_stage_crossfade sC5 1 0
  have h2 := loudness_stage_crossfade sC5p 1 0
  have hn : ¬ ((0.001 : ℚ) <
      sC5.loudness_gain + sC5.smooth_coeff * (sC5.loudness_gain_target - sC5.loudness_gain)) := by
    norm_num [sC5, sBase]
  have hp : (0.001 : ℚ) <
      sC5p.loudness_gain + sC5p.smooth_coeff * (sC5p.loudness_gain_target - sC5p.loudness_gain) := by
    norm_num [sC5p, sBase]
  exact ⟨(h1.2.2 hn).2.1, (h1.2.2 hn).2.2.1, (h2.2.1 hp).1⟩

/-- The clamp used by the hard-clip stage and the float output stays in
`[-1, 1]`. -/
theorem clamp_abs_le (x : ℚ) : |max (-1) (min 1 x)| ≤ 1 :=
  abs_le.2 ⟨le_max_left _ _, max_le (by norm_num) (min_le_left _ _)⟩

theorem pre_gain_stage_clip (s : dsp_state_t) (l r : ℚ) :
    (pre_gain_stage s l r).1.clipping_detected = s.clipping_detected := rfl

theorem hpf_stage_clip (s : dsp_state_t) (l r : ℚ) :
    (hpf_stage s l r).1.clipping_detected = s.clipping_detected := rfl

theorem eq_stage_clip (s : dsp_state_t) (l r : ℚ) :
    (eq_stage s l r).1.clipping_detected = s.clipping_detected := rfl

theorem loudness_stage_clip (s : dsp_state_t) (l r : ℚ) :
    (loudness_stage s l r).1.clipping_detected = s.clipping_detected := by
  simp only [loudness_stage]
  split <;> rfl

theorem normalizer_stage_clip (env : CEnv) (s : dsp_state_t) (l r : ℚ) :
    (normalizer_stage env s l r).1.clipping_detected = s.clipping_detected := by
  simp only [normalizer_stage]
  split <;> rfl

theorem limiter_stage_clip (s : dsp_state_t) (l r : ℚ) :
    (limiter_stage s l r).1.clipping_detected = s.clipping_detected := by
  simp only [limiter_stage]
  split <;> split <;> rfl

theorem limiter_stage_float_clip (s : dsp_state_t) (l r : ℚ) :
    (limiter_stage_float s l r).1.clipping_detected = s.clipping_detected := by
  simp only [limiter_stage_float]
  split <;> split <;> rfl

theorem clip_stage_clip (s : dsp_state_t) (l r : ℚ) :
    (clip_stage s l r).1.clipping_detected =
      (s.clipping_detected || decide (1 < |l| ∨ 1 < |r|)) := by
  simp only [clip_stage]
  split
  · next h => simp [h]
  · next h => simp [h]

theorem volume_stage_clip (s : dsp_state_t) (l r : ℚ) :
    (volume_stage s l r).1.clipping_detected = s.clipping_detected := rfl

theorem duck_stage_clip (s : dsp_state_t) (l r : ℚ) :
    (duck_stage s l r).1.clipping_detected = s.clipping_detected := rfl

theorem mute_stage_clip (s : dsp_state_t) (l r : ℚ) :
    (mute_stage s l r).1.clipping_detected = s.clipping_detected := rfl

/-- Once raised, the sticky flag survives a processed frame. -/
theorem dsp_process_frame_clip_mono (env : CEnv) (s : dsp_state_t) (inl inr : ℤ)
    (h : s.clipping_detected = true) :
    (dsp_process_frame env s inl inr).1.clipping_detected = true := by
  simp only [dsp_process_frame, mute_stage_clip, duck_stage_clip, volume_stage_clip,
    clip_stage_clip, limiter_stage_clip, normalizer_stage_clip, loudness_stage_clip,
    eq_stage_clip, hpf_stage_clip, pre_gain_stage_clip, h, Bool.true_or]

/-- Once raised, the sticky flag survives the whole int16 frame loop. -/
theorem dsp_process_go_clip_mono (env : CEnv) (s : dsp_state_t) (frames : List (ℤ × ℤ))
    (h : s.clipping_detected = true) :
    (dsp_process_go env s frames).1.clipping_detected = true := by
  induction frames generalizing s with
  | nil => simpa [dsp_process_go] using h
  | cons f rest ih =>
    simp only [dsp_process_go]
    exact ih _ (dsp_process_frame_clip_mono env s f.1 f.2 h)

/-- The float frame path never touches the clipping flag. -/
theorem dsp_process_float_frame_clip (env : CEnv) (s : dsp_state_t) (l r : ℚ) :
    (dsp_process_float_frame env s l r).1.clipping_detected = s.clipping_detected := by
  simp only [dsp_process_float_frame, limiter_stage_float_clip, normalizer_stage_clip]
  split <;> simp [hpf_stage_clip]

/-- Nor does the float frame loop. -/
theorem dsp_process_float_go_clip (env : CEnv) (s : dsp_state_t) (frames : List (ℚ × ℚ)) :
    (dsp_process_float_go env s frames).1.clipping_detected = s.clipping_detected := by
  induction frames generalizing s with
  | nil => simp [dsp_process_float_go]
  | cons f rest ih =>
    simp only [dsp_process_float_go]
    rw [ih, dsp_process_float_frame_clip]

/-- A record whose clipping flag is already clear is unchanged by
clearing it. -/
theorem clear_clip_eq_self (s : dsp_state_t) (h : s.clipping_detected = false) :
    ({ s with clipping_detected := false } : dsp_state_t) = s := by
  cases s
  simp_all

/-- C8: the hard-clip stage clamps any sample outside `[-1, 1]` to the
range and raises the sticky clipping flag (and does nothing otherwise);
processing never clears the raised flag; `dsp_get_status` reports it in
bit 1 and clearing it is the read's only state change; and no setter
touches it. -/
theorem clipping_sticky_spec (env : CEnv) :
    (∀ (s : dsp_state_t) (l r : ℚ), (1 < |l| ∨ 1 < |r|) →
      (clip_stage s l r).1.clipping_detected = true ∧
      (clip_stage s l r).2.1 = max (-1) (min 1 l) ∧
      (clip_stage s l r).2.2 = max (-1) (min 1 r) ∧
      |(clip_stage s l r).2.1| ≤ 1 ∧ |(clip_stage s l r).2.2| ≤ 1) ∧
    (∀ (s : dsp_state_t) (l r : ℚ), ¬ (1 < |l| ∨ 1 < |r|) →
      clip_stage s l r = (s, l, r)) ∧
    (∀ (s : dsp_state_t) (frames : List (ℤ × ℤ)), s.clipping_detected = true →
      (dsp_process env s frames).1.clipping_detected = true) ∧
    (∀ (s : dsp_state_t) (frames : List (ℚ × ℚ)),
      (dsp_process_float env s frames).1.clipping_detected = s.clipping_detected) ∧
    (∀ s : dsp_state_t, (dsp_get_status s).1.flags.testBit 1 = s.clipping_detected ∧
      (dsp_get_status s).2 = { s with clipping_detected := false }) ∧
    (∀ (s : dsp_state_t) (p : ℕ),
      (dsp_set_preset env s p).2.clipping_detected = s.clipping_detected) ∧
    (∀ (s : dsp_state_t) (b : Bool),
      (dsp_set_loudness s b).2.clipping_detected = s.clipping_detected) ∧
    (∀ (s : dsp_state_t) (b : Bool),
      (dsp_set_mute s b).2.clipping_detected = s.clipping_detected) ∧
    (∀ (s : dsp_state_t) (b : Bool),
      (dsp_set_audio_duck env s b).2.clipping_detected = s.clipping_detected) ∧
    (∀ (s : dsp_state_t) (b : Bool),
      (dsp_set_normalizer env s b).2.clipping_detected = s.clipping_detected) ∧
    (∀ (s : dsp_state_t) (v : ℕ),
      (dsp_set_volume_trim env s v).2.clipping_detected = s.clipping_detected) ∧
    (∀ (s : dsp_state_t) (rt : ℕ),
      (dsp_set_sample_rate env s rt).2.clipping_detected = s.clipping_detected) := by
  refine ⟨fun s l r h => ?_, fun s l r h => ?_, fun s frames h => ?_, fun s frames => ?_,
    fun s => ⟨?_, ?_⟩, fun s p => ?_, fun s b => ?_, fun s b => ?_, fun s b => ?_,
    fun s b => ?_, fun s v => ?_, fun s rt => ?_⟩
  · exact ⟨by simp [clip_stage, h], by simp [clip_stage, h], by simp [clip_stage, h],
      by simp only [clip_stage, if_pos h]; exact clamp_abs_le l,
      by simp only [clip_stage, if_pos h]; exact clamp_abs_le r⟩
  · simp [clip_stage, h]
  · simp only [dsp_process]
    split
    · exact h
    · exact dsp_process_go_clip_mono env s frames h
  · simp only [dsp_process_float]
    split
    · rfl
    · exact dsp_process_float_go_clip env s frames
  · cases hm : s.muted <;> cases hd : s.audio_duck_enabled <;>
      cases hn : s.normalizer_enabled <;> cases hc : s.clipping_detected <;>
        simp [dsp_get_status, hm, hd, hn, hc, DSP_FLAG_LIMITER_ACTIVE, DSP_FLAG_MUTED,
          DSP_FLAG_AUDIO_DUCK, DSP_FLAG_NORMALIZER, DSP_FLAG_CLIPPING] <;> decide
  · rcases hc : s.clipping_detected
    · simp [dsp_get_status, hc, clear_clip_eq_self s hc]
    · simp [dsp_get_status, hc]
  · simp only [dsp_set_preset]
    split_ifs <;> rfl
  · simp only [dsp_set_loudness]
    split_ifs <;> rfl
  · simp only [dsp_set_mute]
    split_ifs <;> rfl
  · simp only [dsp_set_audio_duck]
    split_ifs <;> rfl
  · simp only [dsp_set_normalizer]
    split_ifs <;> rfl
  · simp only [dsp_set_volume_trim]
    split_ifs <;> rfl
  · simp only [dsp_set_sample_rate]
    split_ifs <;> rfl

/-- Witness for C8: an out-of-range sample raises the flag, the flag
survives a processed buffer, and a status read clears it. -/
theorem clipping_sticky_spec_witness :
    (clip_stage sBase 2 0).1.clipping_detected = true ∧
    (dsp_process envW sBaseClip [(0, 0)]).1.clipping_detected = true ∧
    (dsp_get_status sBaseClip).2 = { sBaseClip with clipping_detected := false } := by
  have h := clipping_sticky_spec envW
  exact ⟨(h.1 sBase 2 0 (Or.inl (by norm_num))).1, h.2.2.1 sBaseClip [(0, 0)] rfl,
    (h.2.2.2.2.1 sBaseClip).2⟩

/-- Truncation toward zero keeps a value inside integer bounds that
already contain it. -/
theorem trunc_to_int_range (q : ℚ) (h1 : -32768 ≤ q) (h2 : q ≤ 32767) :
    -32768 ≤ trunc_to_int q ∧ trunc_to_int q ≤ 32767 := by
  unfold trunc_to_int
  split
  · next h0 =>
    refine ⟨le_trans (by norm_num) (Int.floor_nonneg.2 h0), ?_⟩
    have h3 : (⌊q⌋ : ℚ) ≤ 32767 := (Int.floor_le q).trans h2
    exact_mod_cast h3
  · next h0 =>
    refine ⟨?_, Int.ceil_le.2 (by exact_mod_cast h2)⟩
    have h3 : (-32768 : ℚ) ≤ (⌈q⌉ : ℚ) := h1.trans (Int.le_ceil q)
    exact_mod_cast h3

/-- `FLOAT_TO_INT16` always lands in the int16 range. -/
theorem FLOAT_TO_INT16_range (x : ℚ) :
    -32768 ≤ FLOAT_TO_INT16 x ∧ FLOAT_TO_INT16 x ≤ 32767 := by
  unfold FLOAT_TO_INT16
  exact trunc_to_int_range _ (le_max_left _ _) (max_le (by norm_num) (min_le_left _ _))

/-- The `[-1, 1]` clamp lands in `[-1, 1]`. -/
theorem clamp_range (x : ℚ) : -1 ≤ max (-1) (min 1 x) ∧ max (-1) (min 1 x) ≤ 1 :=
  ⟨le_max_left _ _, max_le (by norm_num) (min_le_left _ _)⟩

/-- Both samples written by one int16 frame are in range. -/
theorem dsp_process_frame_out_range (env : CEnv) (s : dsp_state_t) (inl inr : ℤ) :
    -32768 ≤ (dsp_process_frame env s inl inr).2.1 ∧
    (dsp_process_frame env s inl inr).2.1 ≤ 32767 ∧
    -32768 ≤ (dsp_process_frame env s inl inr).2.2 ∧
    (dsp_process_frame env s inl inr).2.2 ≤ 32767 := by
  simp only [dsp_process_frame]
  exact ⟨(FLOAT_TO_INT16_range _).1, (FLOAT_TO_INT16_range _).2,
    (FLOAT_TO_INT16_range _).1, (FLOAT_TO_INT16_range _).2⟩

/-- Every sample written by the int16 frame loop is in range. -/
theorem dsp_process_go_out_range (env : CEnv) (s : dsp_state_t) (frames : List (ℤ × ℤ)) :
    ∀ p ∈ (dsp_process_go env s frames).2,
      -32768 ≤ p.1 ∧ p.1 ≤ 32767 ∧ -32768 ≤ p.2 ∧ p.2 ≤ 32767 := by
  induction frames generalizing s with
  | nil => simp [dsp_process_go]
  | cons f rest ih =>
    intro p hp
    simp only [dsp_process_go, List.mem_cons] at hp
    rcases hp with h | h
    · subst h
      exact ⟨(dsp_process_frame_out_range env s f.1 f.2).1,
        (dsp_process_frame_out_range env s f.1 f.2).2.1,
        (dsp_process_frame_out_range env s f.1 f.2).2.2.1,
        (dsp_process_frame_out_range env s f.1 f.2).2.2.2⟩
    · exact ih _ p h

/-- Both samples written by one float frame are in `[-1, 1]`. -/
theorem dsp_process_float_frame_out_range (env : CEnv) (s : dsp_state_t) (l r : ℚ) :
    -1 ≤ (dsp_process_float_frame env s l r).2.1 ∧
    (dsp_process_float_frame env s l r).2.1 ≤ 1 ∧
    -1 ≤ (dsp_process_float_frame env s l r).2.2 ∧
    (dsp_process_float_frame env s l r).2.2 ≤ 1 := by
  simp only [dsp_process_float_frame]
  exact ⟨(clamp_range _).1, (clamp_range _).2, (clamp_range _).1, (clamp_range _).2⟩

/-- Every sample written by the float frame loop is in `[-1, 1]`. -/
theorem dsp_process_float_go_out_range (env : CEnv) (s : dsp_state_t)
    (frames : List (ℚ × ℚ)) :
    ∀ p ∈ (dsp_process_float_go env s frames).2,
      -1 ≤ p.1 ∧ p.1 ≤ 1 ∧ -1 ≤ p.2 ∧ p.2 ≤ 1 := by
  induction frames generalizing s with
  | nil => simp [dsp_process_float_go]
  | cons f rest ih =>
    intro p hp
    simp only [dsp_process_float_go, List.mem_cons] at hp
    rcases hp with h | h
    · subst h
      exact ⟨(dsp_process_float_frame_out_range env s f.1 f.2).1,
        (dsp_process_float_frame_out_range env s f.1 f.2).2.1,
        (dsp_process_float_frame_out_range env s f.1 f.2).2.2.1,
        (dsp_process_float_frame_out_range env s f.1 f.2).2.2.2⟩
    · exact ih _ p h

/-- C10: on an initialized engine every sample written back by
`dsp_process` lies in `[-32768, 32767]` and every sample written back
by `dsp_process_float` lies in `[-1, 1]`, whatever the gains and filter
outputs do in between. -/
theorem process_output_range (env : CEnv) (s : dsp_state_t)
    (frames : List (ℤ × ℤ)) (fl : List (ℚ × ℚ)) (hinit : s.initialized = true) :
    (∀ p ∈ (dsp_process env s frames).2,
      -32768 ≤ p.1 ∧ p.1 ≤ 32767 ∧ -32768 ≤ p.2 ∧ p.2 ≤ 32767) ∧
    (∀ q ∈ (dsp_process_float env s fl).2,
      -1 ≤ q.1 ∧ q.1 ≤ 1 ∧ -1 ≤ q.2 ∧ q.2 ≤ 1) := by
  constructor
  · by_cases hf : frames = []
    · subst hf
      simp [dsp_process]
    · have he : dsp_process env s frames = dsp_process_go env s frames := by
        simp [dsp_process, hinit, hf]
      rw [he]
      exact dsp_process_go_out_range env s frames
  · by_cases hf : fl = []
    · subst hf
      simp [dsp_process_float]
    · have he : dsp_process_float env s fl = dsp_process_float_go env s fl := by
        simp [dsp_process_float, hinit, hf]
      rw [he]
      exact dsp_process_float_go_out_range env s fl

/-- Witness for C10: run one zero frame through `sBase` in both paths. -/
theorem process_output_range_witness :
    (-32768 ≤ (0 : ℤ) ∧ (0 : ℤ) ≤ 32767 ∧ -32768 ≤ (0 : ℤ) ∧ (0 : ℤ) ≤ 32767) ∧
    (-1 ≤ (0 : ℚ) ∧ (0 : ℚ) ≤ 1 ∧ -1 ≤ (0 : ℚ) ∧ (0 : ℚ) ≤ 1) := by
  have h := process_output_range envW sBase [(0, 0)] [(0, 0)] rfl
  constructor
  · refine h.1 (0, 0) ?_
    norm_num [dsp_process, dsp_process_go, dsp_process_frame, pre_gain_stage, hpf_stage,
      eq_stage, loudness_stage, normalizer_stage, limiter_stage, clip_stage, volume_stage,
      duck_stage, mute_stage, INT16_TO_FLOAT, FLOAT_TO_INT16, trunc_to_int, biquad_process,
      interpolate_coeffs, sBase]
  · refine h.2 (0, 0) ?_
    norm_num [dsp_process_float, dsp_process_float_go, dsp_process_float_frame, hpf_stage,
      normalizer_stage, limiter_stage_float, biquad_process, sBase]
